import Mathlib

/-!
Verification development for the FixerUpper client components:
the image upload widget in src/client/src/components/image-uploader.tsx
and the paginated gallery in src/client/src/pages/gallery.tsx.

The components are embedded shallowly: each event handler becomes a pure
function from its inputs (the selected file, the outcome of the asynchronous
base64 encoding, the server response) to the ordered list of observable
events it produces (state updates, network calls, toasts, callback
invocations).  The ordering of events follows JavaScript event-loop
semantics: the synchronous body of the handler, including its finally
block, runs to completion before any FileReader callback fires.
-/

/-! ## JavaScript string primitives -/

/-- Character-list version of JavaScript String.prototype.startsWith
(case-sensitive). -/
def listStartsWith : List Char → List Char → Bool
  | _, [] => true
  | [], _ :: _ => false
  | a :: as, b :: bs => a == b && listStartsWith as bs

/-- JavaScript s.startsWith(p). -/
def strStartsWith (s p : String) : Bool :=
  listStartsWith s.data p.data

/-- Containment of sub as a contiguous run inside hay. -/
def listHasSub (sub : List Char) : List Char → Bool
  | [] => listStartsWith [] sub
  | c :: rest => listStartsWith (c :: rest) sub || listHasSub sub rest

/-- JavaScript s.includes(sub), for the non-empty literals used in the source. -/
def jsIncludes (s sub : String) : Bool :=
  listHasSub sub.data s.data

/-- JavaScript s.toLowerCase(), restricted to the character-wise lowering that
the ASCII MIME strings in the source exercise. -/
def strToLower (s : String) : String :=
  ⟨s.data.map Char.toLower⟩

/-! ## Data model of the uploader -/

/-- The two fields of a browser File object that handleFileSelect reads. -/
structure JSFile where
  type : String
  size : Nat
  deriving DecidableEq, Repr

/-- Toast titles used by both components: t(error) and t(success). -/
inductive ToastTitle where
  | error
  | success
  deriving DecidableEq, Repr

/-- The localized message keys surfaced in toast descriptions. -/
inductive Msg where
  | selectImageFile
  | imageTooLarge
  | imageUploadFailed
  | imageUploadedSuccessfully
  | imageDeletedSuccess
  | imageDeleteFailed
  deriving DecidableEq, Repr

/-- Observable events emitted by the uploader component, in program order. -/
inductive Event where
  | toast (title : ToastTitle) (desc : Msg) (destructive : Bool)
  | netPost (path : String) (imageData : String) (contentType : String)
  | callbackUrl (url : String)
  | setPreview (v : Option String)
  | setUploading (v : Bool)
  | clearFileInput
  | removeCallback
  deriving DecidableEq, Repr

/-- Outcome of the asynchronous FileReader.readAsDataURL encoding step. -/
inductive EncodeOutcome where
  | ok (base64Data : String)
  | err
  deriving DecidableEq, Repr

/-- Behaviour of the POST to /api/upload-image, as observed by the component:
a 2xx response carrying an imageUrl, a non-2xx response whose JSON body may
carry a message field, or a rejected request (transport failure). -/
inductive ServerBehavior where
  | ok (imageUrl : String)
  | httpError (message : Option String)
  | networkError (message : String)
  deriving DecidableEq, Repr

/-! ## handleFileSelect -/

/-- The fixed MIME allow-list of handleFileSelect. -/
def validTypes : List String :=
  ["image/jpeg", "image/jpg", "image/png", "image/gif", "image/webp",
   "image/heic", "image/heif"]

/-- file.type.startsWith(image slash) or validTypes.includes(file.type.toLowerCase()). -/
def isValidType (f : JSFile) : Bool :=
  strStartsWith f.type "image/" || validTypes.contains (strToLower f.type)

/-- The size limit 10 * 1024 * 1024 bytes. -/
def maxUploadSize : Nat := 10 * 1024 * 1024

/-- The fallback for a missing or falsy server message:
error.message or the literal Failed to upload image. -/
def fallbackMessage : String := "Failed to upload image"

/-- The message carried by the Error thrown on a non-ok response. -/
def thrownMessage : Option String → String
  | some m => if m = "" then fallbackMessage else m
  | none => fallbackMessage

/-- The catch-block remapping of a thrown error message onto the client
vocabulary, including the guard that a falsy message keeps the generic one. -/
def mapUploadError (msg : String) : Msg :=
  if msg = "" then Msg.imageUploadFailed
  else if jsIncludes msg "Invalid file type" || jsIncludes msg "only"
      || jsIncludes msg "allowed" then Msg.selectImageFile
  else if jsIncludes msg "size" || jsIncludes msg "5MB" then Msg.imageTooLarge
  else Msg.imageUploadFailed

/-- The remapping of a server-supplied message as section 4.1 of the
specification words it: a message containing one of the substrings Invalid
file type, only, or allowed is surfaced as the file-type-rejection message;
otherwise one containing size or 5MB as the too-large message; anything else
as the generic failure message.  Spec-side counterpart of mapUploadError for
refinement claim C5. -/
def specSurfacedMessage (m : String) : Msg :=
  if jsIncludes m "Invalid file type" || jsIncludes m "only"
      || jsIncludes m "allowed" then Msg.selectImageFile
  else if jsIncludes m "size" || jsIncludes m "5MB" then Msg.imageTooLarge
  else Msg.imageUploadFailed

/-- Events of the asynchronous part of handleFileSelect: the onloadend and
onerror callbacks of the FileReader, which fire after the synchronous body
(and its finally block) has completed. -/
def readerDone (f : JSFile) (enc : EncodeOutcome) (srv : ServerBehavior) :
    List Event :=
  match enc with
  | EncodeOutcome.err =>
      [Event.toast ToastTitle.error Msg.imageUploadFailed true,
       Event.setUploading false, Event.clearFileInput]
  | EncodeOutcome.ok base64Data =>
      Event.netPost "/api/upload-image" base64Data f.type ::
      match srv with
      | ServerBehavior.ok imageUrl =>
          [Event.setPreview (some base64Data),
           Event.callbackUrl imageUrl,
           Event.toast ToastTitle.success Msg.imageUploadedSuccessfully false,
           Event.setUploading false, Event.clearFileInput]
      | ServerBehavior.httpError message =>
          [Event.toast ToastTitle.error (mapUploadError (thrownMessage message)) true,
           Event.setUploading false, Event.clearFileInput]
      | ServerBehavior.networkError m =>
          [Event.toast ToastTitle.error (mapUploadError m) true,
           Event.setUploading false, Event.clearFileInput]

/-- Full event trace of handleFileSelect.  After both validations pass, the
synchronous part sets uploading to true, initiates readAsDataURL, and then the
finally block immediately sets uploading back to false and clears the file
input; only afterwards do the FileReader callbacks run. -/
def handleFileSelect (file : Option JSFile) (enc : EncodeOutcome)
    (srv : ServerBehavior) : List Event :=
  match file with
  | none => []
  | some f =>
      if isValidType f then
        if f.size > maxUploadSize then
          [Event.toast ToastTitle.error Msg.imageTooLarge true]
        else
          [Event.setUploading true, Event.setUploading false,
           Event.clearFileInput] ++ readerDone f enc srv
      else
        [Event.toast ToastTitle.error Msg.selectImageFile true]

/-- handleRemove: clear the preview and invoke the optional removal callback. -/
def handleRemove (hasOnRemove : Bool) : List Event :=
  Event.setPreview none :: if hasOnRemove then [Event.removeCallback] else []

/-! ## Trace observers -/

/-- Whether an event is a network call of the uploader. -/
def isNetworkEvent : Event → Bool
  | Event.netPost _ _ _ => true
  | _ => false

/-- A trace containing no network call. -/
def netFree (tr : List Event) : Bool :=
  tr.all fun e => !isNetworkEvent e

/-- The arguments of all invocations of the onImageUploaded callback, in order. -/
def callbackArgs (tr : List Event) : List String :=
  tr.filterMap fun e =>
    match e with
    | Event.callbackUrl u => some u
    | _ => none

/-- The values written to the preview state, in order. -/
def previewSets (tr : List Event) : List (Option String) :=
  tr.filterMap fun e =>
    match e with
    | Event.setPreview v => some v
    | _ => none

/-- The descriptions of all destructive (error) toasts, in order. -/
def destructiveToastDescs (tr : List Event) : List Msg :=
  tr.filterMap fun e =>
    match e with
    | Event.toast _ d true => some d
    | _ => none

/-- The suffix of a trace strictly after its first callback invocation. -/
def afterFirstCallback : List Event → List Event
  | [] => []
  | Event.callbackUrl _ :: rest => rest
  | _ :: rest => afterFirstCallback rest

/-- The value of the uploading state after the first k events of a trace,
starting from the initial value false. -/
def uploadingAfter (tr : List Event) (k : Nat) : Bool :=
  (tr.take k).foldl
    (fun b e =>
      match e with
      | Event.setUploading v => v
      | _ => b)
    false

/-! ## Gallery page: pagination -/

/-- The pagination object reported by GET /api/order-images. -/
structure Pagination where
  page : Nat
  totalPages : Nat
  hasNext : Bool
  hasPrevious : Bool
  total : Nat
  deriving DecidableEq, Repr

/-- The disabled attribute of the previous-page button: !pagination.hasPrevious. -/
def prevButtonDisabled (p : Pagination) : Bool := !p.hasPrevious

/-- The disabled attribute of the next-page button: !pagination.hasNext. -/
def nextButtonDisabled (p : Pagination) : Bool := !p.hasNext

/-- onClick of the previous-page button: setCurrentPage(currentPage - 1). -/
def clickPrevious (currentPage : Int) : Int := currentPage - 1

/-- onClick of the next-page button: setCurrentPage(currentPage + 1). -/
def clickNext (currentPage : Int) : Int := currentPage + 1

/-! ## Gallery page: delete flow -/

/-- Observable events of the gallery page. -/
inductive GEvent where
  | netDelete (path : String)
  | invalidateQuery
  | toast (title : ToastTitle) (desc : Msg) (destructive : Bool)
  deriving DecidableEq, Repr

/-- The component-local state of the gallery page touched by the delete flow. -/
structure GalleryState where
  currentPage : Int
  deletingImageId : Option String
  selectedImageIndex : Option Nat
  deriving DecidableEq, Repr

/-- Whether the DELETE request succeeds or fails. -/
inductive DeleteOutcome where
  | ok
  | err
  deriving DecidableEq, Repr

/-- handleDeleteClick: record the id pending confirmation; no network call. -/
def handleDeleteClick (s : GalleryState) (imageId : String) :
    GalleryState × List GEvent :=
  ({ s with deletingImageId := some imageId }, [])

/-- Dismissing the confirmation dialog: onOpenChange(false) clears the pending
id; no network call. -/
def cancelDelete (s : GalleryState) : GalleryState × List GEvent :=
  ({ s with deletingImageId := none }, [])

/-- confirmDelete: if an id is pending, run the delete mutation — one DELETE
request, then on success invalidate the query and toast success, on failure
toast failure; the pending id is cleared in both outcomes. -/
def confirmDelete (s : GalleryState) (outcome : DeleteOutcome) :
    GalleryState × List GEvent :=
  match s.deletingImageId with
  | none => (s, [])
  | some imageId =>
      match outcome with
      | DeleteOutcome.ok =>
          ({ s with deletingImageId := none },
           [GEvent.netDelete ("/api/order-images/" ++ imageId),
            GEvent.invalidateQuery,
            GEvent.toast ToastTitle.success Msg.imageDeletedSuccess false])
      | DeleteOutcome.err =>
          ({ s with deletingImageId := none },
           [GEvent.netDelete ("/api/order-images/" ++ imageId),
            GEvent.toast ToastTitle.error Msg.imageDeleteFailed true])

/-- The paths of all DELETE requests in a gallery event list, in order. -/
def deleteCalls (evs : List GEvent) : List String :=
  evs.filterMap fun e =>
    match e with
    | GEvent.netDelete p => some p
    | _ => none

/-! ## Gallery page: lightbox navigation -/

/-- goToPreviousImage: decrement the selected index when it is non-null and
positive, otherwise leave the state unchanged. -/
def goToPreviousImage : Option Nat → Option Nat
  | some i => if 0 < i then some (i - 1) else some i
  | none => none

/-- goToNextImage: increment the selected index when it is non-null and below
images.length - 1 (JavaScript number arithmetic, hence the Int comparison),
otherwise leave the state unchanged. -/
def goToNextImage (imagesLen : Nat) : Option Nat → Option Nat
  | some i =>
      if (i : Int) < (imagesLen : Int) - 1 then some (i + 1) else some i
  | none => none

/-- The keydown listener of the lightbox: Escape closes, arrow keys navigate
with the direction mirrored under a right-to-left locale. -/
def handleKeyDown (isRTL : Bool) (imagesLen : Nat) (idx : Option Nat)
    (key : String) : Option Nat :=
  match idx with
  | none => none
  | some _ =>
      if key = "Escape" then none
      else if key = "ArrowLeft" then
        if isRTL then goToNextImage imagesLen idx else goToPreviousImage idx
      else if key = "ArrowRight" then
        if isRTL then goToPreviousImage idx else goToNextImage imagesLen idx
      else idx

/-- One user navigation action on the lightbox: the two arrow buttons or a
key press. -/
inductive NavAction where
  | buttonPrev
  | buttonNext
  | keydown (isRTL : Bool) (key : String)
  deriving DecidableEq, Repr

/-- Effect of one navigation action on the selected index. -/
def navStep (imagesLen : Nat) (idx : Option Nat) : NavAction → Option Nat
  | NavAction.buttonPrev => goToPreviousImage idx
  | NavAction.buttonNext => goToNextImage imagesLen idx
  | NavAction.keydown isRTL key => handleKeyDown isRTL imagesLen idx key

/-- Effect of a sequence of navigation actions. -/
def navRun (imagesLen : Nat) (idx : Option Nat) (acts : List NavAction) :
    Option Nat :=
  acts.foldl (navStep imagesLen) idx

/-- The selected index is either null or a valid position of the current page. -/
def inRangeB (imagesLen : Nat) : Option Nat → Bool
  | none => true
  | some j => decide (j < imagesLen)

/-! ## Helper lemmas -/

theorem goToPreviousImage_inRange (len : Nat) (o : Option Nat)
    (h : inRangeB len o = true) : inRangeB len (goToPreviousImage o) = true := by
  cases o with
  | none => simp [goToPreviousImage, inRangeB]
  | some i =>
      simp only [inRangeB, decide_eq_true_eq] at h
      by_cases hi : 0 < i <;>
        simp only [goToPreviousImage, hi, if_true, if_false, inRangeB,
          decide_eq_true_eq] <;>
        omega

theorem goToNextImage_inRange (len : Nat) (o : Option Nat)
    (h : inRangeB len o = true) : inRangeB len (goToNextImage len o) = true := by
  cases o with
  | none => simp [goToNextImage, inRangeB]
  | some i =>
      simp only [inRangeB, decide_eq_true_eq] at h
      by_cases hi : (i : Int) < (len : Int) - 1 <;>
        simp only [goToNextImage, hi, if_true, if_false, inRangeB,
          decide_eq_true_eq] <;>
        omega

theorem handleKeyDown_inRange (isRTL : Bool) (len : Nat) (o : Option Nat)
    (key : String) (h : inRangeB len o = true) :
    inRangeB len (handleKeyDown isRTL len o key) = true := by
  cases o with
  | none => simp [handleKeyDown, inRangeB]
  | some i =>
      simp only [handleKeyDown]
      split
      · simp [inRangeB]
      · split
        · split
          · exact goToNextImage_inRange len (some i) h
          · exact goToPreviousImage_inRange len (some i) h
        · split
          · split
            · exact goToPreviousImage_inRange len (some i) h
            · exact goToNextImage_inRange len (some i) h
          · exact h

theorem navStep_inRange (len : Nat) (o : Option Nat) (a : NavAction)
    (h : inRangeB len o = true) : inRangeB len (navStep len o a) = true := by
  cases a with
  | buttonPrev => exact goToPreviousImage_inRange len o h
  | buttonNext => exact goToNextImage_inRange len o h
  | keydown isRTL key => exact handleKeyDown_inRange isRTL len o key h

theorem navRun_inRange (len : Nat) (acts : List NavAction) (o : Option Nat)
    (h : inRangeB len o = true) : inRangeB len (navRun len o acts) = true := by
  induction acts generalizing o with
  | nil => exact h
  | cons a rest ih =>
      simp only [navRun, List.foldl_cons] at ih ⊢
      exact ih (navStep len o a) (navStep_inRange len o a h)

/-! ## Claim theorems -/

/-- Claim C2: for a selected file whose MIME type neither starts with the
image prefix string nor appears, case-insensitively, in the fixed allow-list,
handleFileSelect ends with the choose-an-image-file toast and issues no
network call, whatever the encoding and server would have done. -/
theorem upload_rejects_invalid_type (f : JSFile) (enc : EncodeOutcome)
    (srv : ServerBehavior) (h : isValidType f = false) :
    handleFileSelect (some f) enc srv
        = [Event.toast ToastTitle.error Msg.selectImageFile true]
    ∧ netFree (handleFileSelect (some f) enc srv) = true := by
  constructor
  · simp [handleFileSelect, h]
  · simp [handleFileSelect, h, netFree, isNetworkEvent]

/-- Witness for C2 at the concrete MIME type of a PDF file. -/
theorem upload_rejects_invalid_type_witness :
    isValidType ⟨"application/pdf", 100⟩ = false
    ∧ (handleFileSelect (some ⟨"application/pdf", 100⟩) EncodeOutcome.err
          (ServerBehavior.ok "u")
        = [Event.toast ToastTitle.error Msg.selectImageFile true]
      ∧ netFree (handleFileSelect (some ⟨"application/pdf", 100⟩)
          EncodeOutcome.err (ServerBehavior.ok "u")) = true) :=
  ⟨by decide,
   upload_rejects_invalid_type ⟨"application/pdf", 100⟩ EncodeOutcome.err
     (ServerBehavior.ok "u") (by decide)⟩

/-- Claim C3: for a selected file strictly larger than 10485760 bytes,
handleFileSelect issues no network call, regardless of MIME type. -/
theorem upload_rejects_oversize (f : JSFile) (enc : EncodeOutcome)
    (srv : ServerBehavior) (h : maxUploadSize < f.size) :
    netFree (handleFileSelect (some f) enc srv) = true := by
  cases hv : isValidType f <;>
    simp [handleFileSelect, hv, h, netFree, isNetworkEvent]

/-- Witness for C3 at a valid image type one byte over the limit. -/
theorem upload_rejects_oversize_witness :
    maxUploadSize < (10485761 : Nat)
    ∧ netFree (handleFileSelect (some ⟨"image/png", 10485761⟩)
        (EncodeOutcome.ok "d") (ServerBehavior.ok "u")) = true :=
  ⟨by decide,
   upload_rejects_oversize ⟨"image/png", 10485761⟩ (EncodeOutcome.ok "d")
     (ServerBehavior.ok "u") (by decide)⟩

/-- Claim C10: the MIME check runs before the size check, so a file that
fails both surfaces the choose-an-image-file toast, never the too-large one,
and still causes no network call. -/
theorem type_check_precedes_size_check (f : JSFile) (enc : EncodeOutcome)
    (srv : ServerBehavior) (ht : isValidType f = false)
    (hs : maxUploadSize < f.size) :
    handleFileSelect (some f) enc srv
        = [Event.toast ToastTitle.error Msg.selectImageFile true]
    ∧ Msg.imageTooLarge ∉ destructiveToastDescs (handleFileSelect (some f) enc srv)
    ∧ netFree (handleFileSelect (some f) enc srv) = true := by
  refine ⟨?_, ?_, ?_⟩ <;>
    simp [handleFileSelect, ht, netFree, isNetworkEvent, destructiveToastDescs]

/-- Witness for C10 at a PDF file one byte over the size limit. -/
theorem type_check_precedes_size_check_witness :
    isValidType ⟨"application/pdf", 10485761⟩ = false
    ∧ maxUploadSize < (10485761 : Nat)
    ∧ (handleFileSelect (some ⟨"application/pdf", 10485761⟩)
          (EncodeOutcome.ok "d") (ServerBehavior.ok "u")
        = [Event.toast ToastTitle.error Msg.selectImageFile true]
      ∧ Msg.imageTooLarge ∉ destructiveToastDescs
          (handleFileSelect (some ⟨"application/pdf", 10485761⟩)
            (EncodeOutcome.ok "d") (ServerBehavior.ok "u"))
      ∧ netFree (handleFileSelect (some ⟨"application/pdf", 10485761⟩)
          (EncodeOutcome.ok "d") (ServerBehavior.ok "u")) = true) :=
  ⟨by decide, by decide,
   type_check_precedes_size_check ⟨"application/pdf", 10485761⟩
     (EncodeOutcome.ok "d") (ServerBehavior.ok "u") (by decide) (by decide)⟩

/-- Claim C4: when the POST succeeds with imageUrl u, the caller-supplied
callback is invoked exactly once with u, the preview is set exactly once and
to the base64 data URI produced by the encoding (so never to u when the two
differ), a success toast is emitted, and the file input is cleared after the
callback invocation. -/
theorem upload_success_effects (f : JSFile) (b u : String)
    (hv : isValidType f = true) (hs : f.size ≤ maxUploadSize) :
    callbackArgs (handleFileSelect (some f) (EncodeOutcome.ok b)
        (ServerBehavior.ok u)) = [u]
    ∧ previewSets (handleFileSelect (some f) (EncodeOutcome.ok b)
        (ServerBehavior.ok u)) = [some b]
    ∧ Event.toast ToastTitle.success Msg.imageUploadedSuccessfully false
        ∈ handleFileSelect (some f) (EncodeOutcome.ok b) (ServerBehavior.ok u)
    ∧ Event.clearFileInput ∈ afterFirstCallback
        (handleFileSelect (some f) (EncodeOutcome.ok b) (ServerBehavior.ok u)) := by
  have hns : ¬ f.size > maxUploadSize := by omega
  refine ⟨?_, ?_, ?_, ?_⟩ <;>
    simp [handleFileSelect, hv, hns, readerDone, callbackArgs, previewSets,
      afterFirstCallback]

/-- Witness for C4 at a concrete PNG file and server URL. -/
theorem upload_success_effects_witness :
    isValidType ⟨"image/png", 4⟩ = true
    ∧ (⟨"image/png", 4⟩ : JSFile).size ≤ maxUploadSize
    ∧ (callbackArgs (handleFileSelect (some ⟨"image/png", 4⟩)
          (EncodeOutcome.ok "data:image/png;base64,AAAA")
          (ServerBehavior.ok "https://x/y.png")) = ["https://x/y.png"]
      ∧ previewSets (handleFileSelect (some ⟨"image/png", 4⟩)
          (EncodeOutcome.ok "data:image/png;base64,AAAA")
          (ServerBehavior.ok "https://x/y.png"))
            = [some "data:image/png;base64,AAAA"]
      ∧ Event.toast ToastTitle.success Msg.imageUploadedSuccessfully false
          ∈ handleFileSelect (some ⟨"image/png", 4⟩)
              (EncodeOutcome.ok "data:image/png;base64,AAAA")
              (ServerBehavior.ok "https://x/y.png")
      ∧ Event.clearFileInput ∈ afterFirstCallback
          (handleFileSelect (some ⟨"image/png", 4⟩)
            (EncodeOutcome.ok "data:image/png;base64,AAAA")
            (ServerBehavior.ok "https://x/y.png"))) :=
  ⟨by decide, by decide,
   upload_success_effects ⟨"image/png", 4⟩ "data:image/png;base64,AAAA"
     "https://x/y.png" (by decide) (by decide)⟩

/-- Claim C5: for a non-success POST response with a non-empty body message m,
the surfaced destructive toast is exactly the spec-side remapping of m
(file-type substrings first, then size substrings, else the generic message);
in particular the message Invalid file type, only PNG allowed surfaces the
file-type-rejection message, which differs from the generic one. -/
theorem upload_error_message_remapped (f : JSFile) (b m : String)
    (hv : isValidType f = true) (hs : f.size ≤ maxUploadSize) (hm : m ≠ "") :
    destructiveToastDescs (handleFileSelect (some f) (EncodeOutcome.ok b)
        (ServerBehavior.httpError (some m))) = [specSurfacedMessage m]
    ∧ specSurfacedMessage "Invalid file type, only PNG allowed"
        = Msg.selectImageFile
    ∧ mapUploadError "Invalid file type, only PNG allowed" = Msg.selectImageFile
    ∧ Msg.selectImageFile ≠ Msg.imageUploadFailed := by
  have hns : ¬ f.size > maxUploadSize := by omega
  refine ⟨?_, by decide, by decide, by decide⟩
  simp [handleFileSelect, hv, hns, readerDone, destructiveToastDescs,
    thrownMessage, hm, mapUploadError, specSurfacedMessage]

/-- Witness for C5 at the concrete 400-style body message of the claim. -/
theorem upload_error_message_remapped_witness :
    isValidType ⟨"image/png", 4⟩ = true
    ∧ (⟨"image/png", 4⟩ : JSFile).size ≤ maxUploadSize
    ∧ "Invalid file type, only PNG allowed" ≠ ""
    ∧ (destructiveToastDescs (handleFileSelect (some ⟨"image/png", 4⟩)
          (EncodeOutcome.ok "d")
          (ServerBehavior.httpError (some "Invalid file type, only PNG allowed")))
        = [specSurfacedMessage "Invalid file type, only PNG allowed"]
      ∧ specSurfacedMessage "Invalid file type, only PNG allowed"
          = Msg.selectImageFile
      ∧ mapUploadError "Invalid file type, only PNG allowed"
          = Msg.selectImageFile
      ∧ Msg.selectImageFile ≠ Msg.imageUploadFailed) :=
  ⟨by decide, by decide, by decide,
   upload_error_message_remapped ⟨"image/png", 4⟩ "d"
     "Invalid file type, only PNG allowed" (by decide) (by decide) (by decide)⟩

/-- Claim C1 (violated by the code): on a valid file the synchronous body of
handleFileSelect runs its finally block as soon as readAsDataURL has been
initiated, setting uploading back to false and clearing the input; the POST is
only issued afterwards, from the FileReader callback.  At the trace position
of the network call the uploading flag — which is what disables the upload
control — is therefore already false, so the control is re-enabled while the
encoding and the network call of the first upload are still pending. -/
theorem upload_control_reenabled_midflight :
    (handleFileSelect (some ⟨"image/png", 4⟩)
        (EncodeOutcome.ok "data:image/png;base64,AAAA")
        (ServerBehavior.ok "https://x/y.png")).take 4
      = [Event.setUploading true, Event.setUploading false,
         Event.clearFileInput,
         Event.netPost "/api/upload-image" "data:image/png;base64,AAAA"
           "image/png"]
    ∧ uploadingAfter (handleFileSelect (some ⟨"image/png", 4⟩)
        (EncodeOutcome.ok "data:image/png;base64,AAAA")
        (ServerBehavior.ok "https://x/y.png")) 3 = false := by
  decide

/-- Counterexample to claim C6 as stated: removal is a terminal transition of
the uploader, yet handleRemove never emits a file-input reset, with or
without a removal callback installed. -/
theorem remove_does_not_clear_file_input :
    Event.clearFileInput ∉ handleRemove true
    ∧ Event.clearFileInput ∉ handleRemove false := by
  decide

/-- Claim C6 as amended: the file input is reset (as the last event) on the
success and on every failure terminal of an upload, while removal issues no
network call, clears the preview, invokes the removal callback exactly when
one is installed, and does not touch the file input. -/
theorem terminal_transitions_reset_input (f : JSFile) (b u em : String)
    (msg : Option String) (srv : ServerBehavior) (hasCb : Bool)
    (hv : isValidType f = true) (hs : f.size ≤ maxUploadSize) :
    (handleFileSelect (some f) (EncodeOutcome.ok b)
        (ServerBehavior.ok u)).getLast? = some Event.clearFileInput
    ∧ (handleFileSelect (some f) (EncodeOutcome.ok b)
        (ServerBehavior.httpError msg)).getLast? = some Event.clearFileInput
    ∧ (handleFileSelect (some f) (EncodeOutcome.ok b)
        (ServerBehavior.networkError em)).getLast? = some Event.clearFileInput
    ∧ (handleFileSelect (some f) EncodeOutcome.err srv).getLast?
        = some Event.clearFileInput
    ∧ netFree (handleRemove hasCb) = true
    ∧ Event.setPreview none ∈ handleRemove hasCb
    ∧ (Event.removeCallback ∈ handleRemove hasCb ↔ hasCb = true)
    ∧ Event.clearFileInput ∉ handleRemove hasCb := by
  have hns : ¬ f.size > maxUploadSize := by omega
  refine ⟨?_, ?_, ?_, ?_, ?_, ?_, ?_, ?_⟩ <;>
    cases hasCb <;>
    simp [handleFileSelect, hv, hns, readerDone, handleRemove, netFree,
      isNetworkEvent]

/-- Witness for the amended C6 at concrete inputs. -/
theorem terminal_transitions_reset_input_witness :
    isValidType ⟨"image/png", 4⟩ = true
    ∧ (⟨"image/png", 4⟩ : JSFile).size ≤ maxUploadSize
    ∧ ((handleFileSelect (some ⟨"image/png", 4⟩) (EncodeOutcome.ok "d")
          (ServerBehavior.ok "u")).getLast? = some Event.clearFileInput
      ∧ (handleFileSelect (some ⟨"image/png", 4⟩) (EncodeOutcome.ok "d")
          (ServerBehavior.httpError (some "boom"))).getLast?
            = some Event.clearFileInput
      ∧ (handleFileSelect (some ⟨"image/png", 4⟩) (EncodeOutcome.ok "d")
          (ServerBehavior.networkError "net down")).getLast?
            = some Event.clearFileInput
      ∧ (handleFileSelect (some ⟨"image/png", 4⟩) EncodeOutcome.err
          (ServerBehavior.ok "u")).getLast? = some Event.clearFileInput
      ∧ netFree (handleRemove true) = true
      ∧ Event.setPreview none ∈ handleRemove true
      ∧ (Event.removeCallback ∈ handleRemove true ↔ true = true)
      ∧ Event.clearFileInput ∉ handleRemove true) :=
  ⟨by decide, by decide,
   terminal_transitions_reset_input ⟨"image/png", 4⟩ "d" "u" "net down"
     (some "boom") (ServerBehavior.ok "u") true (by decide) (by decide)⟩

/-- Claim C7: with image id x pending confirmation, confirming issues exactly
one DELETE to the per-image path in both outcomes; on success the query is
invalidated and a success toast shown, on failure a failure toast shown; the
pending id is cleared to none in both outcomes; cancelling the dialog issues
zero events and clears the pending id; and merely clicking delete (opening
the dialog) issues no network call. -/
theorem delete_flow_confirmed_only (s s0 : GalleryState) (x y : String)
    (h : s.deletingImageId = some x) :
    deleteCalls (confirmDelete s DeleteOutcome.ok).2
        = ["/api/order-images/" ++ x]
    ∧ deleteCalls (confirmDelete s DeleteOutcome.err).2
        = ["/api/order-images/" ++ x]
    ∧ GEvent.invalidateQuery ∈ (confirmDelete s DeleteOutcome.ok).2
    ∧ GEvent.toast ToastTitle.success Msg.imageDeletedSuccess false
        ∈ (confirmDelete s DeleteOutcome.ok).2
    ∧ GEvent.toast ToastTitle.error Msg.imageDeleteFailed true
        ∈ (confirmDelete s DeleteOutcome.err).2
    ∧ (confirmDelete s DeleteOutcome.ok).1.deletingImageId = none
    ∧ (confirmDelete s DeleteOutcome.err).1.deletingImageId = none
    ∧ (cancelDelete s).2 = []
    ∧ (cancelDelete s).1.deletingImageId = none
    ∧ (handleDeleteClick s0 y).2 = [] := by
  refine ⟨?_, ?_, ?_, ?_, ?_, ?_, ?_, ?_, ?_, ?_⟩ <;>
    simp [confirmDelete, h, deleteCalls, cancelDelete, handleDeleteClick]

/-- Witness for C7 at the image id of the claim, img-42. -/
theorem delete_flow_confirmed_only_witness :
    (⟨2, some "img-42", none⟩ : GalleryState).deletingImageId = some "img-42"
    ∧ (deleteCalls (confirmDelete ⟨2, some "img-42", none⟩ DeleteOutcome.ok).2
        = ["/api/order-images/" ++ "img-42"]
      ∧ deleteCalls (confirmDelete ⟨2, some "img-42", none⟩ DeleteOutcome.err).2
          = ["/api/order-images/" ++ "img-42"]
      ∧ GEvent.invalidateQuery
          ∈ (confirmDelete ⟨2, some "img-42", none⟩ DeleteOutcome.ok).2
      ∧ GEvent.toast ToastTitle.success Msg.imageDeletedSuccess false
          ∈ (confirmDelete ⟨2, some "img-42", none⟩ DeleteOutcome.ok).2
      ∧ GEvent.toast ToastTitle.error Msg.imageDeleteFailed true
          ∈ (confirmDelete ⟨2, some "img-42", none⟩ DeleteOutcome.err).2
      ∧ (confirmDelete ⟨2, some "img-42", none⟩ DeleteOutcome.ok).1.deletingImageId
          = none
      ∧ (confirmDelete ⟨2, some "img-42", none⟩ DeleteOutcome.err).1.deletingImageId
          = none
      ∧ (cancelDelete ⟨2, some "img-42", none⟩).2 = []
      ∧ (cancelDelete ⟨2, some "img-42", none⟩).1.deletingImageId = none
      ∧ (handleDeleteClick ⟨1, none, none⟩ "img-7").2 = []) :=
  ⟨by decide,
   delete_flow_confirmed_only ⟨2, some "img-42", none⟩ ⟨1, none, none⟩
     "img-42" "img-7" (by decide)⟩

/-- Claim C8: starting from a valid index, any sequence of lightbox
navigation actions (arrow buttons or key presses, in either locale direction)
keeps the selected index inside the page bounds whenever it is non-null, and
the two navigation functions are no-ops at index 0 and at the last index. -/
theorem lightbox_index_clamped (len i : Nat) (acts : List NavAction)
    (hi : i < len) :
    inRangeB len (navRun len (some i) acts) = true
    ∧ goToPreviousImage (some 0) = some 0
    ∧ goToNextImage len (some (len - 1)) = some (len - 1) := by
  refine ⟨navRun_inRange len acts (some i) (by simp [inRangeB, hi]),
    by simp [goToPreviousImage], ?_⟩
  have h1 : ¬ ((len - 1 : Nat) : Int) < (len : Int) - 1 := by omega
  simp [goToNextImage, h1]

/-- Witness for C8: a page of two images, starting at index 0, with a mix of
button and keyboard navigation in both locale directions. -/
theorem lightbox_index_clamped_witness :
    (0 : Nat) < 2
    ∧ (inRangeB 2 (navRun 2 (some 0)
          [NavAction.buttonPrev, NavAction.keydown false "ArrowLeft",
           NavAction.buttonNext, NavAction.buttonNext,
           NavAction.keydown true "ArrowRight",
           NavAction.keydown false "ArrowRight"]) = true
      ∧ goToPreviousImage (some 0) = some 0
      ∧ goToNextImage 2 (some (2 - 1)) = some (2 - 1)) :=
  ⟨by decide,
   lightbox_index_clamped 2 0
     [NavAction.buttonPrev, NavAction.keydown false "ArrowLeft",
      NavAction.buttonNext, NavAction.buttonNext,
      NavAction.keydown true "ArrowRight",
      NavAction.keydown false "ArrowRight"] (by decide)⟩

/-- Claim C9: the previous control is enabled exactly when the server reports
hasPrevious and the next control exactly when hasNext; a click moves the
client-held page number by exactly one with no local clamping; and in the
concrete situation of page 2 with hasPrevious and without hasNext, next is
disabled, previous is enabled, and clicking previous moves the page from 2
to 1. -/
theorem pagination_controls_follow_server_flags (pag : Pagination) (p : Int) :
    (prevButtonDisabled pag = false ↔ pag.hasPrevious = true)
    ∧ (nextButtonDisabled pag = false ↔ pag.hasNext = true)
    ∧ clickPrevious p = p - 1
    ∧ clickNext p = p + 1
    ∧ nextButtonDisabled ⟨2, 2, false, true, 30⟩ = true
    ∧ prevButtonDisabled ⟨2, 2, false, true, 30⟩ = false
    ∧ clickPrevious 2 = 1 := by
  refine ⟨?_, ?_, rfl, rfl, by decide, by decide, by decide⟩ <;>
    cases pag with
    | mk page totalPages hasNext hasPrevious total =>
        cases hasNext <;> cases hasPrevious <;>
          simp [prevButtonDisabled, nextButtonDisabled]
